import Mathlib

/-!
Verification of the ArenaX authentication core (token lifecycle and session
management) against its specification.

The backend implementation itself (Rust, `backend/src/auth/*`) is not part of
the checked-in sources; what the repository carries is its documentation
(`src/backend/JWT_SERVICE.md`, with the configuration type and error taxonomy
shown in usage examples) and the frontend auth hook
(`src/frontend/src/hooks/useAuth.tsx`). Accordingly:

* the configuration-type field list and the error taxonomy are embedded from
  `JWT_SERVICE.md` (the authoritative in-repo evidence);
* the token/session/refresh/rotation operations are modelled from the
  specification (each such definition carries a `Modelled from the spec:`
  doc comment naming the section it follows);
* the frontend client state and `logout` are embedded from `useAuth.tsx`.

Durations and instants are natural-number seconds; signing is modelled by a
key identifier plus a payload-binding tag, which is faithful for every
property considered here (none concerns cryptographic forgery).
-/

namespace ArenaX

/-- Signing algorithm choices named in `JWT_SERVICE.md` (HS256/RS256 signing). -/
inductive Algorithm where
  | HS256
  | RS256
deriving DecidableEq

/-- Embedded from `src/backend/JWT_SERVICE.md` (Configuration Options): the
`JwtConfig` struct literal lists exactly these six fields. Durations in
seconds. -/
structure JwtConfig where
  access_token_expiry : Nat
  refresh_token_expiry : Nat
  algorithm : Algorithm
  issuer : String
  audience : String
  max_refresh_count : Nat
deriving DecidableEq

/-- The field names of `JwtConfig` exactly as they appear in the struct
literals of `src/backend/JWT_SERVICE.md` (Quick Start and Configuration
Options sections). -/
def jwtConfigFieldNames : List String :=
  ["access_token_expiry", "refresh_token_expiry", "algorithm",
   "issuer", "audience", "max_refresh_count"]

/-- Error variants evidenced in `src/backend/JWT_SERVICE.md`: the exhaustive
match in the Error Handling section shows `InvalidToken`, `TokenExpired`,
`TokenBlacklisted`, `SessionNotFound`, `MaxRefreshExceeded`, `RedisError`,
`KeyRotationError`; the Security Policies section additionally uses
`InvalidClaims`. -/
inductive DocJwtError where
  | InvalidToken (msg : String)
  | InvalidClaims (msg : String)
  | TokenExpired
  | TokenBlacklisted
  | SessionNotFound
  | MaxRefreshExceeded
  | RedisError (msg : String)
  | KeyRotationError (msg : String)
deriving DecidableEq

/-- The constructor name (error kind) of a documented error value. -/
def DocJwtError.kindName : DocJwtError → String
  | DocJwtError.InvalidToken _ => "InvalidToken"
  | DocJwtError.InvalidClaims _ => "InvalidClaims"
  | DocJwtError.TokenExpired => "TokenExpired"
  | DocJwtError.TokenBlacklisted => "TokenBlacklisted"
  | DocJwtError.SessionNotFound => "SessionNotFound"
  | DocJwtError.MaxRefreshExceeded => "MaxRefreshExceeded"
  | DocJwtError.RedisError _ => "RedisError"
  | DocJwtError.KeyRotationError _ => "KeyRotationError"

/-- The error kinds of the documented taxonomy, in source order. -/
def docJwtErrorKindNames : List String :=
  ["InvalidToken", "InvalidClaims", "TokenExpired", "TokenBlacklisted",
   "SessionNotFound", "MaxRefreshExceeded", "RedisError", "KeyRotationError"]

/-- The closed error taxonomy claimed by the specification (spec section 7). -/
def specErrorKindNames : List String :=
  ["InvalidToken", "TokenExpired", "TokenBlacklisted", "SessionNotFound",
   "SessionRevoked", "MaxRefreshExceeded", "DeviceMismatch",
   "SuspiciousActivity", "KeyRotationError", "StoreUnavailable"]

/-- The credential-denial ("authentication outcome") kinds of the documented
taxonomy: every kind that reports a rejected credential rather than an
infrastructure failure. -/
def credentialDenialKindNames : List String :=
  ["InvalidToken", "InvalidClaims", "TokenExpired", "TokenBlacklisted",
   "SessionNotFound", "MaxRefreshExceeded"]

/-- Modelled from the spec: the closed error taxonomy of spec section 7, used
as the error type of the modelled operations (the Rust implementation of the
operations is not among the checked-in sources). -/
inductive JwtError where
  | InvalidToken (reason : String)
  | TokenExpired
  | TokenBlacklisted
  | SessionNotFound
  | SessionRevoked
  | MaxRefreshExceeded
  | DeviceMismatch
  | SuspiciousActivity
  | KeyRotationError (reason : String)
  | StoreUnavailable
deriving DecidableEq

/-- Modelled from the spec: one signing key of the KeyMaterial (section 3), an
identifier plus secret material. -/
structure SigningKey where
  id : Nat
  secret : Nat
deriving DecidableEq

/-- Modelled from the spec: KeyMaterial (section 3) — `current_key`, optional
`previous_key`, and the instant of the last rotation. -/
structure KeyMaterial where
  current_key : SigningKey
  previous_key : Option SigningKey
  rotated_at : Nat
deriving DecidableEq

/-- Access versus refresh token, distinguished in the claims so that
`refresh_token` can be restricted to refresh-token claims (spec 4.3 step 1). -/
inductive TokenKind where
  | access
  | refresh
deriving DecidableEq

/-- Modelled from the spec: Claims (section 3) — subject, session id, optional
device id, permissions, validity window, and a unique `token_id` nonce. -/
structure Claims where
  sub : String
  session_id : String
  device_id : Option String
  permissions : List String
  issued_at : Nat
  expires_at : Nat
  token_id : Nat
  kind : TokenKind
deriving DecidableEq

/-- Modelled from the spec: a signed token (section 6) — key id from the
header, the claims payload, and a signature binding the key's secret to the
payload. -/
structure SignedToken where
  key_id : Nat
  claims : Claims
  sig : Nat × Claims
deriving DecidableEq

/-- Signing with a concrete key: the signature binds the key secret to the
payload. -/
def sign_with (k : SigningKey) (c : Claims) : SignedToken :=
  { key_id := k.id, claims := c, sig := (k.secret, c) }

/-- Verification against a concrete key: key id and payload-binding signature
must both match. -/
def verify_with (k : SigningKey) (t : SignedToken) : Bool :=
  decide (t.key_id = k.id ∧ t.sig = (k.secret, t.claims))

/-- Modelled from the spec: signing always uses `current_key` (section 4.5:
`previous_key` is valid for verification only, never for signing). -/
def sign_claims (km : KeyMaterial) (c : Claims) : SignedToken :=
  sign_with km.current_key c

/-- Modelled from the spec: `rotate_keys` (section 4.5) atomically swaps
`previous_key := current_key`, `current_key := new_key`,
`rotated_at := now`. -/
def rotate_keys (km : KeyMaterial) (new_key : SigningKey) (now : Nat) :
    KeyMaterial :=
  { current_key := new_key, previous_key := some km.current_key,
    rotated_at := now }

/-- Modelled from the spec: `should_rotate_keys` (section 4.5) — true when
`now - rotated_at ≥ rotation_interval`, the rotation interval being a policy
constant (it is not a field of `JwtConfig`, see `jwtConfigFieldNames`). -/
def should_rotate_keys (km : KeyMaterial) (now rotation_interval : Nat) :
    Bool :=
  decide (rotation_interval ≤ now - km.rotated_at)

/-- Modelled from the spec: signature verification (section 4.5) — try
`current_key` first, fall back to `previous_key` only while strictly within
the grace window `rotated_at + grace`. -/
def verify_signature (km : KeyMaterial) (now grace : Nat) (t : SignedToken) :
    Bool :=
  verify_with km.current_key t ||
    (match km.previous_key with
     | some pk => decide (now < km.rotated_at + grace) && verify_with pk t
     | none => false)

/-- Modelled from the spec: SessionRecord (section 3). -/
structure SessionRecord where
  session_id : String
  user_id : String
  device_id : Option String
  created_at : Nat
  last_accessed : Nat
  refresh_count : Nat
  is_active : Bool
deriving DecidableEq

/-- Modelled from the spec: BlacklistEntry (section 3) — keyed by `token_id`,
carrying the revocation reason and an expiry matching the revoked token's
original `expires_at`. -/
structure BlacklistEntry where
  token_id : Nat
  reason : String
  expiry : Nat
deriving DecidableEq

/-- Modelled from the spec: the shared store (sessions keyed by session id,
blacklist entries, and the nonce counter from which fresh `token_id`s are
minted). -/
structure Store where
  sessions : List (String × SessionRecord)
  blacklist : List BlacklistEntry
  nonce : Nat
deriving DecidableEq

/-- First-match lookup of a session record by session id. -/
def lookup_session : List (String × SessionRecord) → String →
    Option SessionRecord
  | [], _ => none
  | (k, v) :: rest, sid => if k = sid then some v else lookup_session rest sid

/-- In-place replacement of the record stored under a session id. -/
def update_session : List (String × SessionRecord) → String → SessionRecord →
    List (String × SessionRecord)
  | [], _, _ => []
  | (k, v) :: rest, sid, r =>
    if k = sid then (k, r) :: rest else (k, v) :: update_session rest sid r

/-- Mark the record stored under `sid` inactive (spec 4.2,
`invalidate_session`). -/
def invalidate_list : List (String × SessionRecord) → String →
    List (String × SessionRecord)
  | [], _ => []
  | (k, v) :: rest, sid =>
    (k, if k = sid then { v with is_active := false } else v) ::
      invalidate_list rest sid

/-- Mark every record of the given user inactive (spec 4.2,
`invalidate_all_user_sessions`). -/
def invalidate_user_list : List (String × SessionRecord) → String →
    List (String × SessionRecord)
  | [], _ => []
  | (k, v) :: rest, uid =>
    (k, if v.user_id = uid then { v with is_active := false } else v)
      :: invalidate_user_list rest uid

/-- Membership of a token id in the blacklist (spec 4.4, `is_blacklisted`). -/
def is_blacklisted_list : List BlacklistEntry → Nat → Bool
  | [], _ => false
  | e :: rest, tid => decide (e.token_id = tid) || is_blacklisted_list rest tid

/-- Modelled from the spec: `invalidate_all_user_sessions` (section 4.2) —
invalidates each session of the user via the secondary index and returns the
number invalidated. -/
def invalidate_all_user_sessions (st : Store) (uid : String) : Nat × Store :=
  ((st.sessions.filter (fun p => decide (p.2.user_id = uid))).length,
   { st with sessions := invalidate_user_list st.sessions uid })

/-- Modelled from the spec: TokenPair (section 3) — access token, refresh
token, and `expires_in` (seconds until access-token expiry). -/
structure TokenPair where
  access_token : SignedToken
  refresh_token : SignedToken
  expires_in : Nat
deriving DecidableEq

/-- Modelled from the spec: the device-binding check of PolicyEnforcer
(section 4.6) — `claims.device_id`, if present, must match
`session.device_id`; an absent claims device id passes. -/
def device_check (cd sd : Option String) : Bool :=
  match cd with
  | none => true
  | some c => decide (sd = some c)

/-- Modelled from the spec: `PolicyEnforcer.enforce(claims, session)`
(section 4.6), checks in the listed order — refresh-count ceiling, device
binding, recent-anomaly flag. The source documentation shows a service
method `enforce_security_policies(&claims)` wrapping this with the
session fetched internally. -/
def enforce (max_refresh_count : Nat) (anomaly : Bool) (c : Claims)
    (s : SessionRecord) : Except JwtError Unit :=
  if max_refresh_count < s.refresh_count then
    Except.error JwtError.MaxRefreshExceeded
  else if device_check c.device_id s.device_id = false then
    Except.error JwtError.DeviceMismatch
  else if anomaly then Except.error JwtError.SuspiciousActivity
  else Except.ok ()

/-- Modelled from the spec: `validate_token` (section 4.1) — signature
(current key, then previous key within grace), expiry, then the store
checks: a revoked (inactive or missing) session and the blacklist
(section 4.2 guarantees that a token of an invalidated session fails with
`SessionRevoked`), then the PolicyEnforcer checks. `anomaly` is the
recent-anomaly flag supplied by the AnalyticsCollector. -/
def validate_token (cfg : JwtConfig) (km : KeyMaterial) (st : Store)
    (now grace : Nat) (anomaly : Bool) (t : SignedToken) :
    Except JwtError Claims :=
  if verify_signature km now grace t = false then
    Except.error (JwtError.InvalidToken "signature")
  else if t.claims.expires_at ≤ now then Except.error JwtError.TokenExpired
  else
    match lookup_session st.sessions t.claims.session_id with
    | none => Except.error JwtError.SessionNotFound
    | some s =>
      if s.is_active = false then Except.error JwtError.SessionRevoked
      else if is_blacklisted_list st.blacklist t.claims.token_id then
        Except.error JwtError.TokenBlacklisted
      else
        match enforce cfg.max_refresh_count anomaly t.claims s with
        | Except.error e => Except.error e
        | Except.ok _ => Except.ok t.claims

/-- Modelled from the spec: `generate_token_pair` (section 4.1) — mints a new
session id (supplied by the caller's nonce source), fresh `token_id`s for
the access and refresh tokens from the store's nonce counter, signs both
with `current_key`, and creates the session record as one transactional
unit: `session_create_ok` models the outcome of the store write, and on its
failure no token pair is returned. -/
def generate_token_pair (cfg : JwtConfig) (km : KeyMaterial) (st : Store)
    (subject : String) (device_id : Option String)
    (permissions : List String) (sid : String) (now : Nat)
    (session_create_ok : Bool) : Except JwtError (TokenPair × Store) :=
  let ac : Claims :=
    { sub := subject, session_id := sid, device_id := device_id,
      permissions := permissions, issued_at := now,
      expires_at := now + cfg.access_token_expiry, token_id := st.nonce,
      kind := TokenKind.access }
  let rc : Claims :=
    { sub := subject, session_id := sid, device_id := device_id,
      permissions := permissions, issued_at := now,
      expires_at := now + cfg.refresh_token_expiry,
      token_id := st.nonce + 1, kind := TokenKind.refresh }
  if session_create_ok then
    let srec : SessionRecord :=
      { session_id := sid, user_id := subject, device_id := device_id,
        created_at := now, last_accessed := now, refresh_count := 0,
        is_active := true }
    Except.ok
      ({ access_token := sign_claims km ac, refresh_token := sign_claims km rc,
         expires_in := cfg.access_token_expiry },
       { sessions := (sid, srec) :: st.sessions, blacklist := st.blacklist,
         nonce := st.nonce + 2 })
  else Except.error JwtError.StoreUnavailable

/-- Modelled from the spec: `refresh_token` (section 4.3) — validate
restricted to refresh-token claims, atomically claim the token id
(blacklist it only if not already blacklisted), then load the session:
over the ceiling the call fails `MaxRefreshExceeded` and invalidates the
session while the consumed-token blacklist entry remains; otherwise the
session's `refresh_count` is incremented, `last_accessed` bumped, and a new
pair minted reusing the same session id. The returned store is the state
after the call, also on failure. -/
def refresh_token (cfg : JwtConfig) (km : KeyMaterial) (st : Store)
    (now grace : Nat) (anomaly : Bool) (t : SignedToken) :
    Except JwtError TokenPair × Store :=
  match validate_token cfg km st now grace anomaly t with
  | Except.error e => (Except.error e, st)
  | Except.ok c =>
    if c.kind = TokenKind.refresh then
      if is_blacklisted_list st.blacklist c.token_id then
        (Except.error JwtError.TokenBlacklisted, st)
      else
        let st1 : Store :=
          { st with blacklist :=
              { token_id := c.token_id, reason := "consumed",
                expiry := c.expires_at } :: st.blacklist }
        match lookup_session st1.sessions c.session_id with
        | none => (Except.error JwtError.SessionNotFound, st1)
        | some s =>
          if cfg.max_refresh_count < s.refresh_count + 1 then
            (Except.error JwtError.MaxRefreshExceeded,
             { st1 with sessions := invalidate_list st1.sessions c.session_id })
          else
            let s2 : SessionRecord :=
              { s with refresh_count := s.refresh_count + 1,
                       last_accessed := now }
            let ac : Claims :=
              { sub := c.sub, session_id := c.session_id,
                device_id := c.device_id, permissions := c.permissions,
                issued_at := now, expires_at := now + cfg.access_token_expiry,
                token_id := st1.nonce, kind := TokenKind.access }
            let rc : Claims :=
              { sub := c.sub, session_id := c.session_id,
                device_id := c.device_id, permissions := c.permissions,
                issued_at := now,
                expires_at := now + cfg.refresh_token_expiry,
                token_id := st1.nonce + 1, kind := TokenKind.refresh }
            (Except.ok
               { access_token := sign_claims km ac,
                 refresh_token := sign_claims km rc,
                 expires_in := cfg.access_token_expiry },
             { sessions := update_session st1.sessions c.session_id s2,
               blacklist := st1.blacklist, nonce := st1.nonce + 2 })
    else (Except.error (JwtError.InvalidToken "not a refresh token"), st)

/-- Modelled from the spec: a driver issuing sequential `refresh_token` calls
(section 8, third testable property), each call consuming the refresh token
returned by the previous one; it stops at the first failing call and
returns that call's error together with the store state the failing call
left behind. -/
def refresh_iter (cfg : JwtConfig) (km : KeyMaterial) (now grace : Nat) :
    Nat → SignedToken × Store → Except JwtError Unit × SignedToken × Store
  | 0, (t, st) => (Except.ok (), t, st)
  | n + 1, (t, st) =>
    match refresh_token cfg km st now grace false t with
    | (Except.ok pair, st2) =>
      refresh_iter cfg km now grace n (pair.refresh_token, st2)
    | (Except.error e, st2) => (Except.error e, t, st2)

/-- Embedded from `src/frontend/src/types/match.ts`: `User`. -/
structure User where
  id : String
  username : String
  email : String
  isVerified : Bool
  createdAt : String
deriving DecidableEq

/-- Embedded from `src/frontend/src/types/match.ts`: `AuthUser extends User`
with the stored token pair. -/
structure AuthUser extends User where
  token : String
  refreshToken : String
deriving DecidableEq

/-- The client-side state visible to the auth hook
(`src/frontend/src/hooks/useAuth.tsx`): the browser localStorage as
key/value bindings, the `user` and `error` React states, the `loading`
flag, and the log of network requests the hook has issued (each `fetch`
call appends its URL). -/
structure ClientAuthState where
  localStorage : List (String × String)
  user : Option AuthUser
  error : Option String
  loading : Bool
  requests : List String
deriving DecidableEq

/-- `localStorage.removeItem` semantics: drop every binding of the key. -/
def removeItem : List (String × String) → String → List (String × String)
  | [], _ => []
  | p :: rest, key =>
    if p.1 = key then removeItem rest key else p :: removeItem rest key

/-- `localStorage.getItem` semantics: first binding wins. -/
def getItem : List (String × String) → String → Option String
  | [], _ => none
  | (k, v) :: rest, key => if k = key then some v else getItem rest key

/-- Embedded from `src/frontend/src/hooks/useAuth.tsx`, `logout`
(lines 112-117): remove the `auth_token` and `refresh_token` localStorage
keys and set the `user` and `error` states to null. The body contains no
`fetch` call, so the request log is untouched. -/
def logout (s : ClientAuthState) : ClientAuthState :=
  { s with
    localStorage :=
      removeItem (removeItem s.localStorage "auth_token") "refresh_token",
    user := none,
    error := none }

/-- Modelled from the spec: the invariant holding after the initial issuance
and maintained by every in-ceiling refresh of one session — the current
refresh token is signed by the current key, carries the session id, device
id and a refresh-token expiry window, its `token_id` is below the store's
nonce counter and unblacklisted, every blacklist entry is below the nonce
counter, and the session record is active with `refresh_count = k`. -/
structure GoodState (cfg : JwtConfig) (km : KeyMaterial) (now grace : Nat)
    (sid sub : String) (d : Option String) (perms : List String) (k : Nat)
    (t : SignedToken) (st : Store) : Prop where
  hsig : verify_with km.current_key t = true
  hkind : t.claims.kind = TokenKind.refresh
  hsid : t.claims.session_id = sid
  hdev : t.claims.device_id = d
  hexp : t.claims.expires_at = now + cfg.refresh_token_expiry
  htid : t.claims.token_id < st.nonce
  hfresh : ∀ e ∈ st.blacklist, e.token_id < st.nonce
  hnotbl : is_blacklisted_list st.blacklist t.claims.token_id = false
  hsess : ∃ ca la, lookup_session st.sessions sid =
    some { session_id := sid, user_id := sub, device_id := d,
           created_at := ca, last_accessed := la, refresh_count := k,
           is_active := true }

/-- The example configuration of `JWT_SERVICE.md` (Quick Start): one-hour
access tokens, seven-day refresh tokens, HS256, issuer `arenax`, audience
`arenax-users`, five refreshes. -/
def sampleConfig : JwtConfig :=
  { access_token_expiry := 3600, refresh_token_expiry := 604800,
    algorithm := Algorithm.HS256, issuer := "arenax",
    audience := "arenax-users", max_refresh_count := 5 }

/-- A small configuration whose refresh ceiling of one is convenient for
exercising the `MaxRefreshExceeded` path on concrete runs. -/
def tinyConfig : JwtConfig :=
  { access_token_expiry := 60, refresh_token_expiry := 300,
    algorithm := Algorithm.HS256, issuer := "arenax",
    audience := "arenax-users", max_refresh_count := 1 }

/-- A concrete signing key for concrete runs. -/
def sampleKey : SigningKey := { id := 1, secret := 42 }

/-- Key material holding only `sampleKey`, never rotated. -/
def sampleKeys : KeyMaterial :=
  { current_key := sampleKey, previous_key := none, rotated_at := 0 }

/-- The empty store. -/
def emptyStore : Store := { sessions := [], blacklist := [], nonce := 0 }

/-- A concrete active session record of user `u1` for concrete runs. -/
def sessionU1 : SessionRecord :=
  { session_id := "s1", user_id := "u1", device_id := none,
    created_at := 0, last_accessed := 0, refresh_count := 0,
    is_active := true }

/-- A concrete store holding only `sessionU1`. -/
def storeU1 : Store :=
  { sessions := [("s1", sessionU1)], blacklist := [], nonce := 2 }

/-- A concrete access token of user `u1` bound to `sessionU1`, signed with
`sampleKey`. -/
def tokenU1 : SignedToken :=
  sign_claims sampleKeys
    { sub := "u1", session_id := "s1", device_id := none,
      permissions := [], issued_at := 0, expires_at := 3600,
      token_id := 0, kind := TokenKind.access }

/-- The refresh token minted by `generate_token_pair` under `sampleConfig`
on the empty store at time 0 for user `u1`. -/
def refreshTokenU1 : SignedToken :=
  sign_claims sampleKeys
    { sub := "u1", session_id := "s1", device_id := none,
      permissions := [], issued_at := 0, expires_at := 604800,
      token_id := 1, kind := TokenKind.refresh }

/-- `sessionU1` after one refresh at time 10. -/
def sessionU1refreshed : SessionRecord :=
  { session_id := "s1", user_id := "u1", device_id := none,
    created_at := 0, last_accessed := 10, refresh_count := 1,
    is_active := true }

/-- The store after refreshing `refreshTokenU1` once at time 10: the
consumed token id is blacklisted and the session advanced. -/
def storeU1refreshed : Store :=
  { sessions := [("s1", sessionU1refreshed)],
    blacklist := [{ token_id := 1, reason := "consumed",
                    expiry := 604800 }],
    nonce := 4 }

/-- The token pair returned by that first refresh. -/
def pairU1second : TokenPair :=
  { access_token := sign_claims sampleKeys
      { sub := "u1", session_id := "s1", device_id := none,
        permissions := [], issued_at := 10, expires_at := 3610,
        token_id := 2, kind := TokenKind.access },
    refresh_token := sign_claims sampleKeys
      { sub := "u1", session_id := "s1", device_id := none,
        permissions := [], issued_at := 10, expires_at := 604810,
        token_id := 3, kind := TokenKind.refresh },
    expires_in := 3600 }

/-- The token pair minted by `generate_token_pair` under `tinyConfig` on the
empty store at time 0 for user `u1`. -/
def tinyPair0 : TokenPair :=
  { access_token := sign_claims sampleKeys
      { sub := "u1", session_id := "s1", device_id := none,
        permissions := [], issued_at := 0, expires_at := 60,
        token_id := 0, kind := TokenKind.access },
    refresh_token := sign_claims sampleKeys
      { sub := "u1", session_id := "s1", device_id := none,
        permissions := [], issued_at := 0, expires_at := 300,
        token_id := 1, kind := TokenKind.refresh },
    expires_in := 60 }

/-! Helper lemmas about the store primitives. -/

lemma getItem_removeItem_self (l : List (String × String)) (key : String) :
    getItem (removeItem l key) key = none := by
  induction l with
  | nil => rfl
  | cons p rest ih =>
    by_cases h : p.1 = key
    · simp [removeItem, h, ih]
    · simp [removeItem, getItem, h, ih]

lemma getItem_removeItem_other (l : List (String × String))
    (key key2 : String) (h : key2 ≠ key) :
    getItem (removeItem l key) key2 = getItem l key2 := by
  have hs : key ≠ key2 := fun hc => h hc.symm
  induction l with
  | nil => rfl
  | cons p rest ih =>
    obtain ⟨pk, pv⟩ := p
    by_cases h1 : pk = key
    · subst h1
      simp [removeItem, getItem, hs, ih]
    · by_cases h2 : pk = key2 <;> simp [removeItem, getItem, h1, h2, h, ih]

lemma lookup_session_update_self (l : List (String × SessionRecord))
    (sid : String) (r s : SessionRecord)
    (h : lookup_session l sid = some s) :
    lookup_session (update_session l sid r) sid = some r := by
  induction l with
  | nil => simp [lookup_session] at h
  | cons p rest ih =>
    obtain ⟨pk, pv⟩ := p
    by_cases h1 : pk = sid
    · subst h1
      simp [update_session, lookup_session]
    · rw [lookup_session] at h
      rw [if_neg h1] at h
      simp [update_session, lookup_session, h1]
      exact ih h

lemma lookup_session_invalidate_self (l : List (String × SessionRecord))
    (sid : String) (s : SessionRecord)
    (h : lookup_session l sid = some s) :
    lookup_session (invalidate_list l sid) sid =
      some { s with is_active := false } := by
  induction l with
  | nil => simp [lookup_session] at h
  | cons p rest ih =>
    obtain ⟨pk, pv⟩ := p
    by_cases h1 : pk = sid
    · subst h1
      rw [lookup_session] at h
      rw [if_pos rfl] at h
      injection h with h
      subst h
      simp [invalidate_list, lookup_session]
    · rw [lookup_session] at h
      rw [if_neg h1] at h
      simp [invalidate_list, lookup_session, h1]
      exact ih h

lemma lookup_session_invalidate_user (l : List (String × SessionRecord))
    (uid sid : String) (s : SessionRecord)
    (h : lookup_session l sid = some s) (hu : s.user_id = uid) :
    lookup_session (invalidate_user_list l uid) sid =
      some { s with is_active := false } := by
  induction l with
  | nil => simp [lookup_session] at h
  | cons p rest ih =>
    obtain ⟨pk, pv⟩ := p
    by_cases h1 : pk = sid
    · subst h1
      rw [lookup_session] at h
      rw [if_pos rfl] at h
      injection h with h
      subst h
      simp [invalidate_user_list, lookup_session, hu]
    · rw [lookup_session] at h
      rw [if_neg h1] at h
      simp [invalidate_user_list, lookup_session, h1]
      exact ih h

lemma is_blacklisted_lt (bl : List BlacklistEntry) (n m : Nat)
    (hb : ∀ e ∈ bl, e.token_id < n) (h : n ≤ m) :
    is_blacklisted_list bl m = false := by
  induction bl with
  | nil => rfl
  | cons e rest ih =>
    have h1 : e.token_id < n := hb e (by simp)
    have h2 : e.token_id ≠ m := by omega
    simp [is_blacklisted_list, h2]
    exact ih (fun e2 he2 => hb e2 (by simp [he2]))

lemma device_check_refl (d : Option String) : device_check d d = true := by
  cases d <;> simp [device_check]

lemma enforce_ok_intro (maxR : Nat) (c : Claims) (s : SessionRecord)
    (h1 : ¬ maxR < s.refresh_count)
    (h2 : device_check c.device_id s.device_id = true) :
    enforce maxR false c s = Except.ok () := by
  simp [enforce, h1, h2]

lemma validate_token_ok_intro (cfg : JwtConfig) (km : KeyMaterial)
    (st : Store) (now grace : Nat) (anom : Bool) (t : SignedToken)
    (s : SessionRecord)
    (h1 : verify_signature km now grace t = true)
    (h2 : ¬ t.claims.expires_at ≤ now)
    (h3 : lookup_session st.sessions t.claims.session_id = some s)
    (h4 : s.is_active = true)
    (h5 : is_blacklisted_list st.blacklist t.claims.token_id = false)
    (h6 : enforce cfg.max_refresh_count anom t.claims s = Except.ok ()) :
    validate_token cfg km st now grace anom t = Except.ok t.claims := by
  simp [validate_token, h1, h2, h3, h4, h5, h6]

lemma validate_token_revoked (cfg : JwtConfig) (km : KeyMaterial)
    (st : Store) (now grace : Nat) (anom : Bool) (t : SignedToken)
    (s : SessionRecord)
    (h1 : verify_signature km now grace t = true)
    (h2 : ¬ t.claims.expires_at ≤ now)
    (h3 : lookup_session st.sessions t.claims.session_id = some s)
    (h4 : s.is_active = false) :
    validate_token cfg km st now grace anom t =
      Except.error JwtError.SessionRevoked := by
  simp [validate_token, h1, h2, h3, h4]

lemma validate_token_ok_inv (cfg : JwtConfig) (km : KeyMaterial)
    (st : Store) (now grace : Nat) (anom : Bool) (t : SignedToken)
    (c : Claims)
    (h : validate_token cfg km st now grace anom t = Except.ok c) :
    c = t.claims ∧ verify_signature km now grace t = true ∧
    ¬ t.claims.expires_at ≤ now ∧
    ∃ s, lookup_session st.sessions t.claims.session_id = some s ∧
      s.is_active = true ∧
      is_blacklisted_list st.blacklist t.claims.token_id = false ∧
      enforce cfg.max_refresh_count anom t.claims s = Except.ok () := by
  unfold validate_token at h
  cases hb : verify_signature km now grace t with
  | false => rw [hb] at h; simp at h
  | true =>
    rw [hb] at h
    rw [if_neg (by simp : ¬ (true = false))] at h
    by_cases h2 : t.claims.expires_at ≤ now
    · rw [if_pos h2] at h; simp at h
    · rw [if_neg h2] at h
      cases hl : lookup_session st.sessions t.claims.session_id with
      | none => rw [hl] at h; simp at h
      | some s =>
        rw [hl] at h
        by_cases h4 : s.is_active = false
        · simp [h4] at h
        · simp only [h4, if_false] at h
          have h4t : s.is_active = true := by
            cases hcase : s.is_active
            · exact absurd hcase h4
            · rfl
          by_cases h5 : is_blacklisted_list st.blacklist t.claims.token_id
          · simp [h5] at h
          · simp only [h5, if_false] at h
            cases he : enforce cfg.max_refresh_count anom t.claims s with
            | error e => rw [he] at h; simp at h
            | ok u =>
              cases u
              rw [he] at h
              simp at h
              have h5f : is_blacklisted_list st.blacklist
                  t.claims.token_id = false := by
                cases hx : is_blacklisted_list st.blacklist t.claims.token_id
                · rfl
                · exact absurd hx h5
              exact ⟨h.symm, rfl, h2, ⟨s, rfl, h4t, h5f, he⟩⟩

lemma goodstate_step (cfg : JwtConfig) (km : KeyMaterial) (now grace : Nat)
    (sid sub : String) (d : Option String) (perms : List String) (k : Nat)
    (t : SignedToken) (st : Store)
    (g : GoodState cfg km now grace sid sub d perms k t st)
    (hk1 : k + 1 ≤ cfg.max_refresh_count)
    (hre : 0 < cfg.refresh_token_expiry) :
    ∃ pair st2,
      refresh_token cfg km st now grace false t = (Except.ok pair, st2) ∧
      GoodState cfg km now grace sid sub d perms (k + 1)
        pair.refresh_token st2 := by
  obtain ⟨ca, la, hl⟩ := g.hsess
  have hlt : lookup_session st.sessions t.claims.session_id =
      some { session_id := sid, user_id := sub, device_id := d,
             created_at := ca, last_accessed := la, refresh_count := k,
             is_active := true } := by
    rw [g.hsid]
    exact hl
  have hsigOK : verify_signature km now grace t = true := by
    simp [verify_signature, g.hsig]
  have hexpOK : ¬ t.claims.expires_at ≤ now := by
    rw [g.hexp]
    omega
  have henf : enforce cfg.max_refresh_count false t.claims
      { session_id := sid, user_id := sub, device_id := d, created_at := ca,
        last_accessed := la, refresh_count := k, is_active := true } =
      Except.ok () := by
    apply enforce_ok_intro
    · show ¬ cfg.max_refresh_count < k
      omega
    · show device_check t.claims.device_id d = true
      rw [g.hdev]
      exact device_check_refl d
  have hv : validate_token cfg km st now grace false t =
      Except.ok t.claims :=
    validate_token_ok_intro cfg km st now grace false t _ hsigOK hexpOK hlt
      rfl g.hnotbl henf
  have hc2 : ¬ cfg.max_refresh_count < k + 1 := by omega
  refine ⟨
    { access_token := sign_claims km
        { sub := t.claims.sub, session_id := t.claims.session_id,
          device_id := t.claims.device_id,
          permissions := t.claims.permissions, issued_at := now,
          expires_at := now + cfg.access_token_expiry,
          token_id := st.nonce, kind := TokenKind.access },
      refresh_token := sign_claims km
        { sub := t.claims.sub, session_id := t.claims.session_id,
          device_id := t.claims.device_id,
          permissions := t.claims.permissions, issued_at := now,
          expires_at := now + cfg.refresh_token_expiry,
          token_id := st.nonce + 1, kind := TokenKind.refresh },
      expires_in := cfg.access_token_expiry },
    { sessions := update_session st.sessions t.claims.session_id
        { session_id := sid, user_id := sub, device_id := d,
          created_at := ca, last_accessed := now, refresh_count := k + 1,
          is_active := true },
      blacklist := { token_id := t.claims.token_id, reason := "consumed",
                     expiry := t.claims.expires_at } :: st.blacklist,
      nonce := st.nonce + 2 }, ?_, ?_⟩
  · simp [refresh_token, hv, g.hkind, g.hnotbl, hlt, hc2]
  · refine ⟨?_, ?_, ?_, ?_, ?_, ?_, ?_, ?_, ?_⟩
    · simp [sign_claims, sign_with, verify_with]
    · simp [sign_claims, sign_with]
    · show t.claims.session_id = sid
      exact g.hsid
    · show t.claims.device_id = d
      exact g.hdev
    · rfl
    · show st.nonce + 1 < st.nonce + 2
      omega
    · intro e he
      simp at he
      rcases he with he | he
      · have := g.htid
        subst he
        simp
        omega
      · have := g.hfresh e he
        show e.token_id < st.nonce + 2
        omega
    · show is_blacklisted_list
        ({ token_id := t.claims.token_id, reason := "consumed",
           expiry := t.claims.expires_at } :: st.blacklist)
        (st.nonce + 1) = false
      have h1 : t.claims.token_id ≠ st.nonce + 1 := by
        have := g.htid
        omega
      simp [is_blacklisted_list, h1]
      exact is_blacklisted_lt st.blacklist st.nonce (st.nonce + 1) g.hfresh
        (by omega)
    · refine ⟨ca, now, ?_⟩
      show lookup_session
        (update_session st.sessions t.claims.session_id _) sid = _
      rw [g.hsid]
      exact lookup_session_update_self st.sessions sid _ _ hl

lemma goodstate_fail (cfg : JwtConfig) (km : KeyMaterial) (now grace : Nat)
    (sid sub : String) (d : Option String) (perms : List String) (k : Nat)
    (t : SignedToken) (st : Store)
    (g : GoodState cfg km now grace sid sub d perms k t st)
    (hkmax : k = cfg.max_refresh_count)
    (hre : 0 < cfg.refresh_token_expiry) :
    ∃ stF,
      refresh_token cfg km st now grace false t =
        (Except.error JwtError.MaxRefreshExceeded, stF) ∧
      is_blacklisted_list stF.blacklist t.claims.token_id = true ∧
      (∃ s2, lookup_session stF.sessions sid = some s2 ∧
        s2.is_active = false) ∧
      ∀ t2 now2 grace2 anom2, t2.claims.session_id = sid →
        verify_signature km now2 grace2 t2 = true →
        now2 < t2.claims.expires_at →
        validate_token cfg km stF now2 grace2 anom2 t2 =
          Except.error JwtError.SessionRevoked := by
  obtain ⟨ca, la, hl⟩ := g.hsess
  have hlt : lookup_session st.sessions t.claims.session_id =
      some { session_id := sid, user_id := sub, device_id := d,
             created_at := ca, last_accessed := la, refresh_count := k,
             is_active := true } := by
    rw [g.hsid]
    exact hl
  have hsigOK : verify_signature km now grace t = true := by
    simp [verify_signature, g.hsig]
  have hexpOK : ¬ t.claims.expires_at ≤ now := by
    rw [g.hexp]
    omega
  have henf : enforce cfg.max_refresh_count false t.claims
      { session_id := sid, user_id := sub, device_id := d, created_at := ca,
        last_accessed := la, refresh_count := k, is_active := true } =
      Except.ok () := by
    apply enforce_ok_intro
    · show ¬ cfg.max_refresh_count < k
      omega
    · show device_check t.claims.device_id d = true
      rw [g.hdev]
      exact device_check_refl d
  have hv : validate_token cfg km st now grace false t =
      Except.ok t.claims :=
    validate_token_ok_intro cfg km st now grace false t _ hsigOK hexpOK hlt
      rfl g.hnotbl henf
  have hc2 : cfg.max_refresh_count < k + 1 := by omega
  have hinv : lookup_session
      (invalidate_list st.sessions t.claims.session_id) sid =
      some { session_id := sid, user_id := sub, device_id := d,
             created_at := ca, last_accessed := la, refresh_count := k,
             is_active := false } := by
    rw [g.hsid]
    exact lookup_session_invalidate_self st.sessions sid _ hl
  refine ⟨
    { sessions := invalidate_list st.sessions t.claims.session_id,
      blacklist := { token_id := t.claims.token_id, reason := "consumed",
                     expiry := t.claims.expires_at } :: st.blacklist,
      nonce := st.nonce }, ?_, ?_, ?_, ?_⟩
  · simp [refresh_token, hv, g.hkind, g.hnotbl, hlt, hc2]
  · simp [is_blacklisted_list]
  · exact ⟨_, hinv, rfl⟩
  · intro t2 now2 grace2 anom2 hsid2 hsig2 hexp2
    apply validate_token_revoked cfg km _ now2 grace2 anom2 t2 _ hsig2
      (by omega)
    · rw [hsid2]
      exact hinv
    · rfl

lemma refresh_iter_limit (cfg : JwtConfig) (km : KeyMaterial)
    (now grace : Nat) (sid sub : String) (d : Option String)
    (perms : List String) :
    ∀ j k (t : SignedToken) (st : Store),
    GoodState cfg km now grace sid sub d perms k t st →
    k ≤ cfg.max_refresh_count →
    k + j = cfg.max_refresh_count + 1 →
    0 < cfg.refresh_token_expiry →
    ∃ tF stF,
      refresh_iter cfg km now grace j (t, st) =
        (Except.error JwtError.MaxRefreshExceeded, tF, stF) ∧
      is_blacklisted_list stF.blacklist tF.claims.token_id = true ∧
      (∃ s2, lookup_session stF.sessions sid = some s2 ∧
        s2.is_active = false) ∧
      ∀ t2 now2 grace2 anom2, t2.claims.session_id = sid →
        verify_signature km now2 grace2 t2 = true →
        now2 < t2.claims.expires_at →
        validate_token cfg km stF now2 grace2 anom2 t2 =
          Except.error JwtError.SessionRevoked := by
  intro j
  induction j with
  | zero =>
    intro k t st g hk hj hre
    omega
  | succ n ih =>
    intro k t st g hk hj hre
    by_cases hkm : k = cfg.max_refresh_count
    · obtain ⟨stF, heq, hbl, hsess, hval⟩ :=
        goodstate_fail cfg km now grace sid sub d perms k t st g hkm hre
      refine ⟨t, stF, ?_, hbl, hsess, hval⟩
      simp [refresh_iter, heq]
    · obtain ⟨pair, st2, heq, g2⟩ :=
        goodstate_step cfg km now grace sid sub d perms k t st g
          (by omega) hre
      obtain ⟨tF, stF, hiter, hbl, hsess, hval⟩ :=
        ih (k + 1) pair.refresh_token st2 g2 (by omega) (by omega) hre
      refine ⟨tF, stF, ?_, hbl, hsess, hval⟩
      simp [refresh_iter, heq]
      exact hiter

/-- C6 counterexample: `rotation_interval` is not among the recognized fields
of the service's configuration type `JwtConfig` as documented in
`JWT_SERVICE.md`, so the claim that it is a recognized configuration option
of that type is false. -/
theorem c6_counterexample : "rotation_interval" ∉ jwtConfigFieldNames := by
  decide

/-- C6 (amended): `should_rotate_keys` returns true exactly when
`now - rotated_at ≥ rotation_interval`, where the rotation interval is a
policy constant supplied to the key manager (thirty days by default per the
documentation) and not a field of the `JwtConfig` configuration type. -/
theorem c6_should_rotate_keys (km : KeyMaterial) (now interval : Nat)
    (h : km.rotated_at ≤ now) :
    (should_rotate_keys km now interval = true ↔
      km.rotated_at + interval ≤ now) ∧
    "rotation_interval" ∉ jwtConfigFieldNames := by
  constructor
  · simp only [should_rotate_keys, decide_eq_true_eq]
    omega
  · decide

/-- C6 witness: the amended equivalence at a concrete key-material value. -/
theorem c6_witness :
    sampleKeys.rotated_at ≤ 40 ∧
    ((should_rotate_keys sampleKeys 40 30 = true ↔
      sampleKeys.rotated_at + 30 ≤ 40) ∧
     "rotation_interval" ∉ jwtConfigFieldNames) :=
  ⟨by decide, c6_should_rotate_keys sampleKeys 40 30 (by decide)⟩

/-- C7 counterexample: the store-failure error evidenced in the source
documentation, `RedisError`, is not one of the ten kinds of the claimed
closed taxonomy (which instead names `StoreUnavailable`), so the claim's
closed set does not cover the errors of the documented operations. -/
theorem c7_counterexample :
    DocJwtError.kindName (DocJwtError.RedisError "connection refused") ∉
      specErrorKindNames := by
  decide

/-- C7 (amended): every error value of the documented taxonomy is one of the
closed set InvalidToken, InvalidClaims, TokenExpired, TokenBlacklisted,
SessionNotFound, MaxRefreshExceeded, RedisError, KeyRotationError, and the
transient store-failure case is reported as the `RedisError` kind, distinct
from every credential-denial kind. -/
theorem c7_error_taxonomy :
    (∀ e : DocJwtError, DocJwtError.kindName e ∈ docJwtErrorKindNames) ∧
    "RedisError" ∈ docJwtErrorKindNames ∧
    "RedisError" ∉ credentialDenialKindNames := by
  refine ⟨?_, by decide, by decide⟩
  intro e
  cases e <;> simp [DocJwtError.kindName, docJwtErrorKindNames]

/-- C9: the policy check takes the claims and the session record; whenever
`claims.device_id` is present, differs from `session.device_id`, and the
refresh ceiling is not also violated (that check precedes the device check
in spec 4.6's listing order), enforcement fails with `DeviceMismatch`; when
`claims.device_id` is absent the device check passes. -/
theorem c9_device_mismatch :
    (∀ (maxR : Nat) (anomaly : Bool) (c : Claims) (s : SessionRecord)
      (dev : String), c.device_id = some dev → s.device_id ≠ some dev →
      s.refresh_count ≤ maxR →
      enforce maxR anomaly c s = Except.error JwtError.DeviceMismatch) ∧
    ∀ (c : Claims) (s : SessionRecord), c.device_id = none →
      device_check c.device_id s.device_id = true := by
  constructor
  · intro maxR anomaly c s dev h1 h2 h3
    have hd : device_check c.device_id s.device_id = false := by
      rw [h1]
      simp [device_check, h2]
    have hm : ¬ maxR < s.refresh_count := by omega
    simp [enforce, hm, hd]
  · intro c s h
    rw [h]
    simp [device_check]

/-- C9 witness: a concrete mismatching claims/session pair, and a concrete
absent device id. -/
theorem c9_witness :
    ((⟨"u1", "s1", some "devA", [], 0, 10, 0,
        TokenKind.access⟩ : Claims).device_id = some "devA" ∧
     enforce 5 false
       ⟨"u1", "s1", some "devA", [], 0, 10, 0, TokenKind.access⟩
       ⟨"s1", "u1", some "devB", 0, 0, 0, true⟩ =
       Except.error JwtError.DeviceMismatch) ∧
    device_check
      (⟨"u1", "s1", none, [], 0, 10, 0, TokenKind.access⟩ : Claims).device_id
      (some "devB") = true :=
  ⟨⟨rfl, c9_device_mismatch.1 5 false _ _ "devA" rfl (by decide) (by decide)⟩,
   c9_device_mismatch.2 ⟨"u1", "s1", none, [], 0, 10, 0, TokenKind.access⟩
     ⟨"s1", "u1", some "devB", 0, 0, 0, true⟩ rfl⟩

/-- C10: the frontend logout only mutates local client state — it removes
exactly the `auth_token` and `refresh_token` localStorage keys (every other
key is untouched), sets the user and error states to null, leaves the
loading flag alone, and issues no network request. -/
theorem c10_logout_local_only (s : ClientAuthState) (key : String)
    (h1 : key ≠ "auth_token") (h2 : key ≠ "refresh_token") :
    getItem (logout s).localStorage "auth_token" = none ∧
    getItem (logout s).localStorage "refresh_token" = none ∧
    getItem (logout s).localStorage key = getItem s.localStorage key ∧
    (logout s).user = none ∧
    (logout s).error = none ∧
    (logout s).loading = s.loading ∧
    (logout s).requests = s.requests := by
  simp only [logout]
  refine ⟨?_, ?_, ?_, trivial, trivial, trivial, trivial⟩
  · rw [getItem_removeItem_other _ _ _ (by decide)]
    exact getItem_removeItem_self _ _
  · exact getItem_removeItem_self _ _
  · rw [getItem_removeItem_other _ _ _ h2, getItem_removeItem_other _ _ _ h1]

/-- C10 witness: logout on a concrete client state, checked at the unrelated
key `theme`. -/
theorem c10_witness :
    ("theme" : String) ≠ "auth_token" ∧
    (getItem (logout
        { localStorage := [("auth_token", "a"), ("refresh_token", "r"),
                           ("theme", "dark")],
          user := some ⟨⟨"1", "u", "u@x", true, "2024"⟩, "a", "r"⟩,
          error := some "boom", loading := false,
          requests := ["/api/auth/login"] }).localStorage "auth_token" =
        none ∧
      getItem (logout
        { localStorage := [("auth_token", "a"), ("refresh_token", "r"),
                           ("theme", "dark")],
          user := some ⟨⟨"1", "u", "u@x", true, "2024"⟩, "a", "r"⟩,
          error := some "boom", loading := false,
          requests := ["/api/auth/login"] }).localStorage "refresh_token" =
        none ∧
      getItem (logout
        { localStorage := [("auth_token", "a"), ("refresh_token", "r"),
                           ("theme", "dark")],
          user := some ⟨⟨"1", "u", "u@x", true, "2024"⟩, "a", "r"⟩,
          error := some "boom", loading := false,
          requests := ["/api/auth/login"] }).localStorage "theme" =
        getItem [("auth_token", "a"), ("refresh_token", "r"),
                 ("theme", "dark")] "theme" ∧
      (logout
        { localStorage := [("auth_token", "a"), ("refresh_token", "r"),
                           ("theme", "dark")],
          user := some ⟨⟨"1", "u", "u@x", true, "2024"⟩, "a", "r"⟩,
          error := some "boom", loading := false,
          requests := ["/api/auth/login"] }).user = none ∧
      (logout
        { localStorage := [("auth_token", "a"), ("refresh_token", "r"),
                           ("theme", "dark")],
          user := some ⟨⟨"1", "u", "u@x", true, "2024"⟩, "a", "r"⟩,
          error := some "boom", loading := false,
          requests := ["/api/auth/login"] }).error = none ∧
      (logout
        { localStorage := [("auth_token", "a"), ("refresh_token", "r"),
                           ("theme", "dark")],
          user := some ⟨⟨"1", "u", "u@x", true, "2024"⟩, "a", "r"⟩,
          error := some "boom", loading := false,
          requests := ["/api/auth/login"] }).loading = false ∧
      (logout
        { localStorage := [("auth_token", "a"), ("refresh_token", "r"),
                           ("theme", "dark")],
          user := some ⟨⟨"1", "u", "u@x", true, "2024"⟩, "a", "r"⟩,
          error := some "boom", loading := false,
          requests := ["/api/auth/login"] }).requests =
        ["/api/auth/login"]) :=
  ⟨by decide,
   c10_logout_local_only
     { localStorage := [("auth_token", "a"), ("refresh_token", "r"),
                        ("theme", "dark")],
       user := some ⟨⟨"1", "u", "u@x", true, "2024"⟩, "a", "r"⟩,
       error := some "boom", loading := false,
       requests := ["/api/auth/login"] } "theme" (by decide) (by decide)⟩

/-- C4: token issuance and session creation form one transactional unit —
when the session-record write fails, `generate_token_pair` returns an error
and no token pair; whenever it returns a token pair, the session record for
the minted session id exists in the returned store, so the caller never
creates the session separately. -/
theorem c4_generate_session_transactional (cfg : JwtConfig)
    (km : KeyMaterial) (st : Store) (sub : String) (d : Option String)
    (perms : List String) (sid : String) (now : Nat) :
    generate_token_pair cfg km st sub d perms sid now false =
      Except.error JwtError.StoreUnavailable ∧
    ∀ ok pair st2,
      generate_token_pair cfg km st sub d perms sid now ok =
        Except.ok (pair, st2) →
      lookup_session st2.sessions sid =
        some { session_id := sid, user_id := sub, device_id := d,
               created_at := now, last_accessed := now, refresh_count := 0,
               is_active := true } := by
  constructor
  · simp [generate_token_pair]
  · intro ok pair st2 h
    cases ok
    · simp [generate_token_pair] at h
    · simp [generate_token_pair] at h
      obtain ⟨h1, h2⟩ := h
      subst h2
      simp [lookup_session]

/-- C4 witness: a failing session write yields an error on a concrete input,
and a succeeding one leaves the session record in the returned store. -/
theorem c4_witness :
    generate_token_pair sampleConfig sampleKeys emptyStore "u1" none []
      "s1" 5 false = Except.error JwtError.StoreUnavailable ∧
    lookup_session
      [("s1", { session_id := "s1", user_id := "u1", device_id := none,
                created_at := 5, last_accessed := 5, refresh_count := 0,
                is_active := true })] "s1" =
      some { session_id := "s1", user_id := "u1", device_id := none,
             created_at := 5, last_accessed := 5, refresh_count := 0,
             is_active := true } :=
  ⟨(c4_generate_session_transactional sampleConfig sampleKeys emptyStore
      "u1" none [] "s1" 5).1,
   (c4_generate_session_transactional sampleConfig sampleKeys emptyStore
      "u1" none [] "s1" 5).2 true _ _ rfl⟩

/-- C5: after `rotate_keys(new_key)` — (1) a token signed before rotation
still passes signature verification at any time strictly before
`rotated_at + grace_period`, through the `previous_key` fallback; (2) the
previous key is never used for signing: signing after rotation uses the new
current key; (3) within the grace window such a token validates
successfully under the usual store conditions; (4) once the grace window
has elapsed, validation of a token signed under the previous key fails
with `InvalidToken`; (5) with `grace_period ≥ max(access_token_expiry,
refresh_token_expiry)`, no token signed before rotation outlives the grace
window. -/
theorem c5_key_rotation_grace (cfg : JwtConfig) (km : KeyMaterial)
    (newk : SigningKey) (now_r grace : Nat) (c : Claims) (st : Store)
    (hk : ¬ (km.current_key.id = newk.id ∧
             km.current_key.secret = newk.secret)) :
    (∀ nv, nv < now_r + grace →
      verify_signature (rotate_keys km newk now_r) nv grace
        (sign_claims km c) = true) ∧
    (∀ c2, sign_claims (rotate_keys km newk now_r) c2 = sign_with newk c2) ∧
    (∀ nv s, nv < now_r + grace → nv < c.expires_at →
      lookup_session st.sessions c.session_id = some s →
      s.is_active = true →
      is_blacklisted_list st.blacklist c.token_id = false →
      enforce cfg.max_refresh_count false c s = Except.ok () →
      validate_token cfg (rotate_keys km newk now_r) st nv grace false
        (sign_claims km c) = Except.ok c) ∧
    (∀ nv anom, now_r + grace ≤ nv →
      validate_token cfg (rotate_keys km newk now_r) st nv grace anom
        (sign_claims km c) =
        Except.error (JwtError.InvalidToken "signature")) ∧
    (max cfg.access_token_expiry cfg.refresh_token_expiry ≤ grace →
      c.issued_at ≤ now_r →
      c.expires_at ≤ c.issued_at +
        max cfg.access_token_expiry cfg.refresh_token_expiry →
      c.expires_at ≤ now_r + grace) := by
  have hfall : ∀ nv, nv < now_r + grace →
      verify_signature (rotate_keys km newk now_r) nv grace
        (sign_claims km c) = true := by
    intro nv hnv
    simp [verify_signature, rotate_keys, sign_claims, sign_with,
      verify_with, hnv]
  refine ⟨hfall, ?_, ?_, ?_, ?_⟩
  · intro c2
    rfl
  · intro nv s h1 h2 h3 h4 h5 h6
    exact validate_token_ok_intro cfg (rotate_keys km newk now_r) st nv
      grace false (sign_claims km c) s (hfall nv h1)
      (by show ¬ c.expires_at ≤ nv; omega) h3 h4 h5 h6
  · intro nv anom hge
    have hfalse : verify_signature (rotate_keys km newk now_r) nv grace
        (sign_claims km c) = false := by
      simp [verify_signature, rotate_keys, sign_claims, sign_with,
        verify_with]
      constructor
      · intro hid hsec
        exact hk ⟨hid, hsec⟩
      · omega
    simp [validate_token, hfalse]
  · intro h1 h2 h3
    omega

/-- C5 witness: rotating from `sampleKey` to a fresh key at time 100 with a
grace window of 50 — a token signed before rotation verifies at time 120,
and fails as `InvalidToken` at time 200. -/
theorem c5_witness :
    ¬ (sampleKeys.current_key.id = ({ id := 2, secret := 43 } :
        SigningKey).id ∧
       sampleKeys.current_key.secret = ({ id := 2, secret := 43 } :
        SigningKey).secret) ∧
    verify_signature (rotate_keys sampleKeys { id := 2, secret := 43 } 100)
      120 50 (sign_claims sampleKeys
        ⟨"u1", "s1", none, [], 90, 150, 0, TokenKind.access⟩) = true ∧
    validate_token sampleConfig
      (rotate_keys sampleKeys { id := 2, secret := 43 } 100) emptyStore 200
      50 false (sign_claims sampleKeys
        ⟨"u1", "s1", none, [], 90, 150, 0, TokenKind.access⟩) =
      Except.error (JwtError.InvalidToken "signature") :=
  ⟨by decide,
   (c5_key_rotation_grace sampleConfig sampleKeys { id := 2, secret := 43 }
      100 50 ⟨"u1", "s1", none, [], 90, 150, 0, TokenKind.access⟩
      emptyStore (by decide)).1 120 (by decide),
   ((c5_key_rotation_grace sampleConfig sampleKeys { id := 2, secret := 43 }
      100 50 ⟨"u1", "s1", none, [], 90, 150, 0, TokenKind.access⟩
      emptyStore (by decide)).2.2.2.1 200 false (by decide))⟩

/-- C1: a `generate_token_pair(s, d, p)` call under access-token expiry `E`
returns a pair with `expires_in = E`, and an immediate `validate_token` on
its access token (fresh nonce unblacklisted, no intervening invalidation or
anomaly) succeeds with claims whose subject, device id and permissions are
the arguments and whose validity window spans exactly `E` seconds. -/
theorem c1_generate_validate_roundtrip (cfg : JwtConfig) (km : KeyMaterial)
    (st : Store) (sub : String) (d : Option String) (perms : List String)
    (sid : String) (now grace : Nat)
    (hE : 0 < cfg.access_token_expiry)
    (hbl : is_blacklisted_list st.blacklist st.nonce = false) :
    ∃ pair st2,
      generate_token_pair cfg km st sub d perms sid now true =
        Except.ok (pair, st2) ∧
      pair.expires_in = cfg.access_token_expiry ∧
      ∃ c, validate_token cfg km st2 now grace false pair.access_token =
          Except.ok c ∧
        c.sub = sub ∧ c.device_id = d ∧ c.permissions = perms ∧
        c.expires_at - c.issued_at = cfg.access_token_expiry := by
  refine ⟨_, _, rfl, rfl,
    { sub := sub, session_id := sid, device_id := d, permissions := perms,
      issued_at := now, expires_at := now + cfg.access_token_expiry,
      token_id := st.nonce, kind := TokenKind.access },
    ?_, rfl, rfl, rfl, ?_⟩
  · refine validate_token_ok_intro cfg km _ now grace false _
      { session_id := sid, user_id := sub, device_id := d,
        created_at := now, last_accessed := now, refresh_count := 0,
        is_active := true }
      (by simp [verify_signature, sign_claims, sign_with, verify_with])
      (by show ¬ now + cfg.access_token_expiry ≤ now; omega)
      (by show lookup_session _ sid = _; simp [lookup_session]) rfl hbl
      (enforce_ok_intro cfg.max_refresh_count _ _
        (by show ¬ cfg.max_refresh_count < 0; omega)
        (by show device_check d d = true; exact device_check_refl d))
  · show now + cfg.access_token_expiry - now = cfg.access_token_expiry
    omega

/-- C1 witness: the round trip on the documentation's example configuration
at concrete inputs. -/
theorem c1_witness :
    0 < sampleConfig.access_token_expiry ∧
    is_blacklisted_list emptyStore.blacklist emptyStore.nonce = false ∧
    ∃ pair st2,
      generate_token_pair sampleConfig sampleKeys emptyStore "u-42"
        (some "deviceA") ["read", "write"] "s1" 1000 true =
        Except.ok (pair, st2) ∧
      pair.expires_in = sampleConfig.access_token_expiry ∧
      ∃ c, validate_token sampleConfig sampleKeys st2 1000 604800 false
          pair.access_token = Except.ok c ∧
        c.sub = "u-42" ∧ c.device_id = some "deviceA" ∧
        c.permissions = ["read", "write"] ∧
        c.expires_at - c.issued_at = sampleConfig.access_token_expiry :=
  ⟨by decide, by decide,
   c1_generate_validate_roundtrip sampleConfig sampleKeys emptyStore "u-42"
     (some "deviceA") ["read", "write"] "s1" 1000 604800 (by decide)
     (by decide)⟩

/-- C8: `invalidate_all_user_sessions(u)` returns the number of sessions
held for `u`, and afterwards every `validate_token` or `refresh_token`
call on a token issued under one of `u`'s sessions (signature still valid,
unexpired) fails with `SessionRevoked`. -/
theorem c8_invalidate_all_user_sessions (cfg : JwtConfig)
    (km : KeyMaterial) (st : Store) (uid : String) (now grace : Nat)
    (anom : Bool) :
    (invalidate_all_user_sessions st uid).1 =
      (st.sessions.filter (fun p => decide (p.2.user_id = uid))).length ∧
    ∀ t s, lookup_session st.sessions t.claims.session_id = some s →
      s.user_id = uid →
      verify_signature km now grace t = true →
      now < t.claims.expires_at →
      validate_token cfg km (invalidate_all_user_sessions st uid).2 now
        grace anom t = Except.error JwtError.SessionRevoked ∧
      refresh_token cfg km (invalidate_all_user_sessions st uid).2 now
        grace anom t =
        (Except.error JwtError.SessionRevoked,
         (invalidate_all_user_sessions st uid).2) := by
  refine ⟨rfl, ?_⟩
  intro t s hl hu hsig hexp
  have hl2 : lookup_session
      (invalidate_all_user_sessions st uid).2.sessions
      t.claims.session_id = some { s with is_active := false } :=
    lookup_session_invalidate_user st.sessions uid t.claims.session_id s
      hl hu
  have hval := validate_token_revoked cfg km _ now grace anom t _ hsig
    (by omega) hl2 rfl
  exact ⟨hval, by simp [refresh_token, hval]⟩

/-- C8 witness: invalidating the single session of user `u1` on a concrete
store counts one session, and the session's access token then fails with
`SessionRevoked`. -/
theorem c8_witness :
    lookup_session storeU1.sessions tokenU1.claims.session_id =
      some sessionU1 ∧
    (invalidate_all_user_sessions storeU1 "u1").1 = 1 ∧
    validate_token sampleConfig sampleKeys
      (invalidate_all_user_sessions storeU1 "u1").2 10 604800 false
      tokenU1 = Except.error JwtError.SessionRevoked :=
  ⟨by decide,
   (c8_invalidate_all_user_sessions sampleConfig sampleKeys storeU1 "u1"
      10 604800 false).1,
   ((c8_invalidate_all_user_sessions sampleConfig sampleKeys storeU1 "u1"
      10 604800 false).2 tokenU1 sessionU1 (by decide) rfl (by decide)
      (by decide)).1⟩

lemma refresh_token_ok_state (cfg : JwtConfig) (km : KeyMaterial)
    (st : Store) (now grace : Nat) (anom : Bool) (t : SignedToken)
    (pair : TokenPair) (st2 : Store)
    (h : refresh_token cfg km st now grace anom t = (Except.ok pair, st2)) :
    is_blacklisted_list st2.blacklist t.claims.token_id = true ∧
    ∃ s2, lookup_session st2.sessions t.claims.session_id = some s2 ∧
      s2.is_active = true := by
  unfold refresh_token at h
  split at h
  · simp at h
  · rename_i c heq
    obtain ⟨hc, hsig, hexp, s, hl, hact, hblf, henf⟩ :=
      validate_token_ok_inv cfg km st now grace anom t c heq
    subst hc
    split at h
    · split at h
      · simp at h
      · simp only [hl] at h
        split at h
        · simp at h
        · simp at h
          obtain ⟨hp, hs2⟩ := h
          constructor
          · rw [← hs2]
            simp [is_blacklisted_list]
          · refine ⟨{ s with refresh_count := s.refresh_count + 1, last_accessed := now }, ?_, hact⟩
            rw [← hs2]
            exact lookup_session_update_self st.sessions
              t.claims.session_id _ s hl
    · simp at h

/-- C2: a refresh token is single-use — while the token is otherwise valid
(its validation succeeds, it is a refresh token, and the session is within
the refresh ceiling) the first `refresh_token` call succeeds and returns a
new pair, and any subsequent `refresh_token` call with the same consumed
token (signature still valid, unexpired) fails with `TokenBlacklisted`,
the consumed token having been blacklisted by the successful refresh. -/
theorem c2_refresh_single_use (cfg : JwtConfig) (km : KeyMaterial)
    (st : Store) (now grace : Nat) (t : SignedToken) :
    (∀ c s, validate_token cfg km st now grace false t = Except.ok c →
      c.kind = TokenKind.refresh →
      lookup_session st.sessions c.session_id = some s →
      s.refresh_count + 1 ≤ cfg.max_refresh_count →
      ∃ pair st2, refresh_token cfg km st now grace false t =
        (Except.ok pair, st2)) ∧
    ∀ pair st2 now2 grace2 anom2,
      refresh_token cfg km st now grace false t = (Except.ok pair, st2) →
      verify_signature km now2 grace2 t = true →
      now2 < t.claims.expires_at →
      refresh_token cfg km st2 now2 grace2 anom2 t =
        (Except.error JwtError.TokenBlacklisted, st2) := by
  constructor
  · intro c s hv hkind hl hle
    obtain ⟨hc, hsig, hexp, s2, hl2, hact, hblf, henf⟩ :=
      validate_token_ok_inv cfg km st now grace false t c hv
    subst hc
    rw [hl] at hl2
    injection hl2 with hl2
    subst hl2
    have hc2 : ¬ cfg.max_refresh_count < s.refresh_count + 1 := by omega
    refine ⟨
      { access_token := sign_claims km
          { sub := t.claims.sub, session_id := t.claims.session_id,
            device_id := t.claims.device_id,
            permissions := t.claims.permissions, issued_at := now,
            expires_at := now + cfg.access_token_expiry,
            token_id := st.nonce, kind := TokenKind.access },
        refresh_token := sign_claims km
          { sub := t.claims.sub, session_id := t.claims.session_id,
            device_id := t.claims.device_id,
            permissions := t.claims.permissions, issued_at := now,
            expires_at := now + cfg.refresh_token_expiry,
            token_id := st.nonce + 1, kind := TokenKind.refresh },
        expires_in := cfg.access_token_expiry },
      { sessions := update_session st.sessions t.claims.session_id
          { s with refresh_count := s.refresh_count + 1,
                   last_accessed := now },
        blacklist := { token_id := t.claims.token_id, reason := "consumed",
                       expiry := t.claims.expires_at } :: st.blacklist,
        nonce := st.nonce + 2 }, ?_⟩
    simp [refresh_token, hv, hkind, hblf, hl, hc2]
  · intro pair st2 now2 grace2 anom2 h hsig2 hexp2
    obtain ⟨hbl2, s2, hl2, hact2⟩ :=
      refresh_token_ok_state cfg km st now grace false t pair st2 h
    have hv2 : validate_token cfg km st2 now2 grace2 anom2 t =
        Except.error JwtError.TokenBlacklisted := by
      simp [validate_token, hsig2,
        (show ¬ t.claims.expires_at ≤ now2 by omega), hl2, hact2, hbl2]
    simp [refresh_token, hv2]

/-- C2 witness: the concrete first refresh of `refreshTokenU1` succeeds, and
repeating it against the resulting store fails with `TokenBlacklisted`. -/
theorem c2_witness :
    (∃ pair st2,
      refresh_token sampleConfig sampleKeys storeU1 10 604800 false
        refreshTokenU1 = (Except.ok pair, st2)) ∧
    refresh_token sampleConfig sampleKeys storeU1refreshed 20 604800 false
      refreshTokenU1 =
      (Except.error JwtError.TokenBlacklisted, storeU1refreshed) :=
  ⟨(c2_refresh_single_use sampleConfig sampleKeys storeU1 10 604800
      refreshTokenU1).1 refreshTokenU1.claims sessionU1 rfl rfl
      (by decide) (by decide),
   (c2_refresh_single_use sampleConfig sampleKeys storeU1 10 604800
      refreshTokenU1).2 pairU1second storeU1refreshed 20 604800 false rfl
      (by decide) (by decide)⟩

/-- C3: starting from a fresh issuance, a run of `max_refresh_count + 1`
sequential refreshes fails at the last call with `MaxRefreshExceeded`; in
the resulting store the consumed token's blacklist entry from the claim
step remains, the session is invalidated, and every subsequent
`validate_token` on any token carrying that session id (signature valid,
unexpired) fails with `SessionRevoked`. -/
theorem c3_max_refresh_exceeded (cfg : JwtConfig) (km : KeyMaterial)
    (st : Store) (sub : String) (d : Option String) (perms : List String)
    (sid : String) (now grace : Nat) (pair0 : TokenPair) (st0 : Store)
    (hre : 0 < cfg.refresh_token_expiry)
    (hfresh : ∀ e ∈ st.blacklist, e.token_id < st.nonce)
    (hgen : generate_token_pair cfg km st sub d perms sid now true =
      Except.ok (pair0, st0)) :
    ∃ tF stF,
      refresh_iter cfg km now grace (cfg.max_refresh_count + 1)
        (pair0.refresh_token, st0) =
        (Except.error JwtError.MaxRefreshExceeded, tF, stF) ∧
      is_blacklisted_list stF.blacklist tF.claims.token_id = true ∧
      (∃ s2, lookup_session stF.sessions sid = some s2 ∧
        s2.is_active = false) ∧
      ∀ t2 now2 grace2 anom2, t2.claims.session_id = sid →
        verify_signature km now2 grace2 t2 = true →
        now2 < t2.claims.expires_at →
        validate_token cfg km stF now2 grace2 anom2 t2 =
          Except.error JwtError.SessionRevoked := by
  simp [generate_token_pair] at hgen
  obtain ⟨hp, hs⟩ := hgen
  subst hp
  subst hs
  refine refresh_iter_limit cfg km now grace sid sub d perms
    (cfg.max_refresh_count + 1) 0 _ _
    ⟨?_, ?_, ?_, ?_, ?_, ?_, ?_, ?_, ?_⟩ (by omega) (by omega) hre
  · simp [sign_claims, sign_with, verify_with]
  · rfl
  · rfl
  · rfl
  · rfl
  · show st.nonce + 1 < st.nonce + 2
    omega
  · intro e he
    have := hfresh e he
    show e.token_id < st.nonce + 2
    omega
  · exact is_blacklisted_lt st.blacklist st.nonce (st.nonce + 1) hfresh
      (by omega)
  · exact ⟨now, now, by simp [lookup_session]⟩

/-- C3 witness: under `tinyConfig` (refresh ceiling one), a fresh issuance
followed by two sequential refreshes hits `MaxRefreshExceeded` on the
second, with the session revoked and the claim-step blacklist entry in
place. -/
theorem c3_witness :
    0 < tinyConfig.refresh_token_expiry ∧
    (∀ e ∈ emptyStore.blacklist, e.token_id < emptyStore.nonce) ∧
    generate_token_pair tinyConfig sampleKeys emptyStore "u1" none []
      "s1" 0 true = Except.ok (tinyPair0, storeU1) ∧
    ∃ tF stF,
      refresh_iter tinyConfig sampleKeys 0 604800
        (tinyConfig.max_refresh_count + 1)
        (tinyPair0.refresh_token, storeU1) =
        (Except.error JwtError.MaxRefreshExceeded, tF, stF) ∧
      is_blacklisted_list stF.blacklist tF.claims.token_id = true ∧
      (∃ s2, lookup_session stF.sessions "s1" = some s2 ∧
        s2.is_active = false) ∧
      ∀ t2 now2 grace2 anom2, t2.claims.session_id = "s1" →
        verify_signature sampleKeys now2 grace2 t2 = true →
        now2 < t2.claims.expires_at →
        validate_token tinyConfig sampleKeys stF now2 grace2 anom2 t2 =
          Except.error JwtError.SessionRevoked :=
  ⟨by decide, by simp [emptyStore],
   rfl,
   c3_max_refresh_exceeded tinyConfig sampleKeys emptyStore "u1" none []
     "s1" 0 604800 tinyPair0 storeU1 (by decide)
     (by simp [emptyStore]) rfl⟩

end ArenaX
